import Mathlib

/-!
Verification of the epidemic cellular-automaton simulation
(`Person` / `Population` classes).

The embedding translates the C++ source:
* `Person._state` is a closed four-valued state (the source only ever
  stores the four strings "susceptible"/"infected"/"recovered"/"vaccinated").
* `Population` holds an n×n matrix of states, the rate parameters and the
  day counter `_t`.  Floating-point rates are modelled as rationals; the
  claims under study concern the branching structure of the update rule,
  which is uniform in the parameter values.
* `Population::Update` consumes one uniform draw per cell per step, in
  row-major order; draws are abstracted as an injected sequence
  `seeds : ℕ → ℚ`, the draw for cell (i,j) being `seeds (i*n + j)`.
-/

namespace Epidemic

/-- The closed enumeration of cell states (`Person._state`). -/
inductive State where
  | susceptible
  | infected
  | recovered
  | vaccinated
deriving DecidableEq, Repr

instance : Fintype State :=
  ⟨⟨{State.susceptible, State.infected, State.recovered, State.vaccinated}, by decide⟩,
   fun s => by cases s <;> decide⟩

/-- The scalar parameters of `Population`: infection rate `_ri`, recovery
rate `_rr`, mutation rate `_rm`, vaccination rate `_rv`, vaccine-hesitancy
rate `_rvh`, and vaccine-availability day `_tv`. -/
structure Params where
  ri : ℚ
  rr : ℚ
  rm : ℚ
  rv : ℚ
  rvh : ℚ
  tv : ℕ
deriving DecidableEq

/-- The default member initializers of `Population`. -/
def defaultParams : Params :=
  { ri := 1/5, rr := 1/20, rm := 1/200, rv := 1/1000, rvh := 1/5, tv := 200 }

/-- The n×n matrix `_m` of `Population`. -/
def Grid (n : ℕ) : Type := Fin n → Fin n → State

/-- A `Population`: the matrix `_m`, the parameters, and the day counter `_t`. -/
structure Pop (n : ℕ) where
  params : Params
  grid : Grid n
  t : ℕ

/-- The four aggregate tallies (`Population::Counts`). -/
structure Counts where
  susceptible : ℕ
  infected : ℕ
  recovered : ℕ
  vaccinated : ℕ
deriving DecidableEq, Repr

/-- Number of cells of `g` in state `s` (one accumulator of the
`countStates` loop). -/
def stateCount {n : ℕ} (g : Grid n) (s : State) : ℕ :=
  (Finset.univ.filter fun p : Fin n × Fin n => g p.1 p.2 = s).card

/-- `Population::countStates`: tally every cell into the bucket of its
state. -/
def countStates {n : ℕ} (g : Grid n) : Counts :=
  { susceptible := stateCount g State.susceptible
    infected := stateCount g State.infected
    recovered := stateCount g State.recovered
    vaccinated := stateCount g State.vaccinated }

/-- `Population::getState` on in-range indices. -/
def getState {n : ℕ} (p : Pop n) (i j : Fin n) : State := p.grid i j

/-- `Population::set_sus/set_inf/set_rec/set_vac` (the `forceState`
operation of the spec): override one cell's state, touching nothing else. -/
def forceState {n : ℕ} (p : Pop n) (i j : Fin n) (s : State) : Pop n :=
  { p with grid := fun a b => if a = i ∧ b = j then s else p.grid a b }

/-- The number of infected orthogonal neighbors of cell (i,j) in the
snapshot `g`: the four bounds-checked reads `mOld[i-1][j]`, `mOld[i][j-1]`,
`mOld[i+1][j]`, `mOld[i][j+1]` of `Population::Update`. -/
def infNb {n : ℕ} (g : Grid n) (i j : Fin n) : ℕ :=
  (if _h : 0 < i.val then
    (if g ⟨i.val - 1, lt_of_le_of_lt (Nat.sub_le _ _) i.isLt⟩ j = State.infected
     then 1 else 0) else 0) +
  (if _h : 0 < j.val then
    (if g i ⟨j.val - 1, lt_of_le_of_lt (Nat.sub_le _ _) j.isLt⟩ = State.infected
     then 1 else 0) else 0) +
  (if h : i.val + 1 < n then
    (if g ⟨i.val + 1, h⟩ j = State.infected then 1 else 0) else 0) +
  (if h : j.val + 1 < n then
    (if g i ⟨j.val + 1, h⟩ = State.infected then 1 else 0) else 0)

/-- The per-cell body of the `Update` loop: `mOld` is the snapshot, `t`
the already-incremented day counter, `allow` the `allowVaccination` flag,
`seed` the cell's uniform draw.  Because the snapshot state is exactly one
of the four values, the three sequential `if` blocks of the source act on
disjoint cases and are a `match`. -/
def cellStep {n : ℕ} (prm : Params) (t : ℕ) (allow : Bool) (g : Grid n)
    (i j : Fin n) (seed : ℚ) : State :=
  match g i j with
  | State.susceptible =>
      let chance_inf : ℚ := (infNb g i j : ℚ) * prm.ri
      if seed < chance_inf then State.infected
      else if prm.tv ≤ t ∧ allow = true then
        (if chance_inf < seed ∧ seed < chance_inf + prm.rv then State.vaccinated
         else State.susceptible)
      else State.susceptible
  | State.infected =>
      if seed < prm.rr then State.recovered else State.infected
  | State.recovered =>
      if seed < prm.rm then State.susceptible
      else if prm.tv < t ∧ allow = true then
        (if prm.rm < seed ∧ seed < prm.rm + prm.rv then State.vaccinated
         else State.recovered)
      else State.recovered
  | State.vaccinated => State.vaccinated

/-- `fracVaccinated` of `Update`: vaccinated count over total cell count. -/
def vacFrac (n : ℕ) (g : Grid n) : ℚ :=
  (stateCount g State.vaccinated : ℚ) / ((n : ℚ) * (n : ℚ))

/-- `Population::Update` (the `advance` operation): increment `_t`, compute
`allowVaccination` once from the pre-step counts, snapshot the grid, then
rewrite every cell from the snapshot using its own draw
`seeds (i*n + j)` (row-major consumption). -/
def update {n : ℕ} (p : Pop n) (seeds : ℕ → ℚ) : Pop n :=
  let t' := p.t + 1
  let allow : Bool := decide (vacFrac n p.grid < 1 - p.params.rvh)
  { p with
    t := t'
    grid := fun i j => cellStep p.params t' allow p.grid i j (seeds (i.val * n + j.val)) }

/-- A fresh `Population(n)` for non-negative `n`: all cells susceptible,
`_t = 0` (the member-initializer list `_m(n, std::vector<Person>(n))`). -/
def initPop (prm : Params) (n : ℕ) : Pop n :=
  { params := prm, grid := fun _ _ => State.susceptible, t := 0 }

/-- `Population::Population(int n)` with its `int` argument.  A negative
`n` converts to an enormous `size_t`, and the `std::vector` allocation
reports failure (`std::length_error`) before any member is built; any
non-negative `n` (including 0) succeeds. -/
def construct (prm : Params) (n : ℤ) : Option ((m : ℕ) × Pop m) :=
  if n < 0 then none else some ⟨n.toNat, initPop prm n.toNat⟩

/-- One scripted operation of the external driver. -/
inductive Op (n : ℕ) where
  | force (i j : Fin n) (s : State)
  | advance (seeds : ℕ → ℚ)

/-- Apply one driver operation. -/
def applyOp {n : ℕ} (p : Pop n) : Op n → Pop n
  | Op.force i j s => forceState p i j s
  | Op.advance seeds => update p seeds

/-- Run a list of driver operations in order. -/
def applyOps {n : ℕ} (p : Pop n) (l : List (Op n)) : Pop n :=
  l.foldl applyOp p

/-- Iterate `advance`, step `k` consuming the draw family `seedss k`. -/
def runSteps {n : ℕ} (p : Pop n) (seedss : ℕ → ℕ → ℚ) : ℕ → Pop n
  | 0 => p
  | k + 1 => update (runSteps p seedss k) (seedss k)

/-- Orthogonal (up/down/left/right) in-bounds adjacency of cell (a,b) to
cell (i,j); no wraparound, since the `+1` relations on `Fin n` values never
cross the grid boundary.  Used to state the neighbor count independently of
the four bounds-checked reads of the source. -/
def isOrthNb {n : ℕ} (i j a b : Fin n) : Prop :=
  (a.val + 1 = i.val ∧ b = j) ∨ (i.val + 1 = a.val ∧ b = j) ∨
  (b.val + 1 = j.val ∧ a = i) ∨ (j.val + 1 = b.val ∧ a = i)

instance {n : ℕ} (i j a b : Fin n) : Decidable (isOrthNb i j a b) := by
  unfold isOrthNb; infer_instance

/-- The spec-side neighbor count: the number of in-bounds orthogonal
neighbors of (i,j) that are infected in `g`. -/
def infNbCard {n : ℕ} (g : Grid n) (i j : Fin n) : ℕ :=
  (Finset.univ.filter fun q : Fin n × Fin n =>
    isOrthNb i j q.1 q.2 ∧ g q.1 q.2 = State.infected).card

/-- Parameters with an early vaccine (`_tv = 1`), no hesitancy and a large
vaccination rate; used for concrete step evaluations. -/
def prmA : Params := { ri := 1/5, rr := 1/20, rm := 1/200, rv := 1/2, rvh := 0, tv := 1 }

/-- A 1×1 all-susceptible population with parameters `prmA`, day 0. -/
def popA : Pop 1 := initPop prmA 1

/-- Parameters with `_tv = 0`; used for concrete recovered-branch
evaluations. -/
def prmB : Params := { ri := 1/5, rr := 1/20, rm := 1/200, rv := 1/2, rvh := 0, tv := 0 }

/-- A 1×1 population whose only cell is forced to recovered, day 0. -/
def popB : Pop 1 := forceState (initPop prmB 1) 0 0 State.recovered

/-- Parameters with hesitancy ceiling `1 - rvh = 3/4` and `_tv = 0`. -/
def prmC : Params := { ri := 1/5, rr := 1/20, rm := 1/200, rv := 1/2, rvh := 1/4, tv := 0 }

/-- A 2×2 population with the top row vaccinated (fraction 1/2) and the
bottom row susceptible, day 0. -/
def popC : Pop 2 :=
  { params := prmC
    grid := fun i _ => if i.val = 0 then State.vaccinated else State.susceptible
    t := 0 }

/-! ### Unfolding lemmas -/

theorem update_grid_eq {n : ℕ} (p : Pop n) (seeds : ℕ → ℚ) (i j : Fin n) :
    (update p seeds).grid i j
      = cellStep p.params (p.t + 1)
          (decide (vacFrac n p.grid < 1 - p.params.rvh)) p.grid i j
          (seeds (i.val * n + j.val)) := rfl

theorem update_t_eq {n : ℕ} (p : Pop n) (seeds : ℕ → ℚ) :
    (update p seeds).t = p.t + 1 := rfl

theorem update_params_eq {n : ℕ} (p : Pop n) (seeds : ℕ → ℚ) :
    (update p seeds).params = p.params := rfl

theorem cellStep_sus {n : ℕ} (prm : Params) (t : ℕ) (allow : Bool) (g : Grid n)
    (i j : Fin n) (seed : ℚ) (h : g i j = State.susceptible) :
    cellStep prm t allow g i j seed =
      (if seed < (infNb g i j : ℚ) * prm.ri then State.infected
       else if prm.tv ≤ t ∧ allow = true then
         (if (infNb g i j : ℚ) * prm.ri < seed
             ∧ seed < (infNb g i j : ℚ) * prm.ri + prm.rv
          then State.vaccinated else State.susceptible)
       else State.susceptible) := by
  unfold cellStep; rw [h]

theorem cellStep_inf {n : ℕ} (prm : Params) (t : ℕ) (allow : Bool) (g : Grid n)
    (i j : Fin n) (seed : ℚ) (h : g i j = State.infected) :
    cellStep prm t allow g i j seed =
      (if seed < prm.rr then State.recovered else State.infected) := by
  unfold cellStep; rw [h]

theorem cellStep_rec {n : ℕ} (prm : Params) (t : ℕ) (allow : Bool) (g : Grid n)
    (i j : Fin n) (seed : ℚ) (h : g i j = State.recovered) :
    cellStep prm t allow g i j seed =
      (if seed < prm.rm then State.susceptible
       else if prm.tv < t ∧ allow = true then
         (if prm.rm < seed ∧ seed < prm.rm + prm.rv
          then State.vaccinated else State.recovered)
       else State.recovered) := by
  unfold cellStep; rw [h]

theorem cellStep_vac {n : ℕ} (prm : Params) (t : ℕ) (allow : Bool) (g : Grid n)
    (i j : Fin n) (seed : ℚ) (h : g i j = State.vaccinated) :
    cellStep prm t allow g i j seed = State.vaccinated := by
  unfold cellStep; rw [h]

/-! ### Conservation of the four tallies -/

theorem stateCount_total {n : ℕ} (g : Grid n) :
    stateCount g State.susceptible + stateCount g State.infected
      + stateCount g State.recovered + stateCount g State.vaccinated = n * n := by
  unfold stateCount
  rw [Finset.card_filter, Finset.card_filter, Finset.card_filter, Finset.card_filter,
    ← Finset.sum_add_distrib, ← Finset.sum_add_distrib, ← Finset.sum_add_distrib]
  have h : ∀ q : Fin n × Fin n,
      ((if g q.1 q.2 = State.susceptible then 1 else 0)
        + (if g q.1 q.2 = State.infected then 1 else 0)
        + (if g q.1 q.2 = State.recovered then 1 else 0)
        + (if g q.1 q.2 = State.vaccinated then 1 else 0)) = 1 := by
    intro q; cases hq : g q.1 q.2 <;> simp [hq]
  rw [Finset.sum_congr rfl fun q _ => h q]
  simp [Finset.card_univ]

/-! ### Neighbor-count characterization -/


theorem sum_ite_eq_pair {n : ℕ} (q₀ : Fin n × Fin n) (E : Fin n × Fin n → Prop)
    [DecidablePred E] :
    (∑ q : Fin n × Fin n, if q = q₀ ∧ E q then (1:ℕ) else 0)
      = if E q₀ then 1 else 0 := by
  have h : ∀ q : Fin n × Fin n,
      (if q = q₀ ∧ E q then (1:ℕ) else 0)
        = if q = q₀ then (if E q then 1 else 0) else 0 := by
    intro q
    by_cases h1 : q = q₀ <;> by_cases h2 : E q <;> simp [h1, h2]
  rw [Finset.sum_congr rfl fun q _ => h q,
    Finset.sum_ite_eq' Finset.univ q₀ fun q => if E q then (1:ℕ) else 0]
  simp

theorem sum_pair_case {n : ℕ} (g : Grid n) (P : Fin n × Fin n → Prop)
    [DecidablePred P] (q₀ : Fin n × Fin n) (hP : ∀ q, P q ↔ q = q₀) :
    (∑ q : Fin n × Fin n, if P q ∧ g q.1 q.2 = State.infected then (1:ℕ) else 0)
      = if g q₀.1 q₀.2 = State.infected then 1 else 0 := by
  have h : ∀ q : Fin n × Fin n,
      (if P q ∧ g q.1 q.2 = State.infected then (1:ℕ) else 0)
        = if q = q₀ ∧ g q.1 q.2 = State.infected then 1 else 0 := by
    intro q
    by_cases h1 : P q
    · have hq : q = q₀ := (hP q).mp h1
      subst hq; simp [h1]
    · have hq : ¬ q = q₀ := fun he => h1 ((hP q).mpr he)
      simp [h1, hq]
  rw [Finset.sum_congr rfl fun q _ => h q,
    sum_ite_eq_pair q₀ fun q => g q.1 q.2 = State.infected]

theorem sum_pair_empty {n : ℕ} (g : Grid n) (P : Fin n × Fin n → Prop)
    [DecidablePred P] (hP : ∀ q, ¬ P q) :
    (∑ q : Fin n × Fin n, if P q ∧ g q.1 q.2 = State.infected then (1:ℕ) else 0)
      = 0 := by
  apply Finset.sum_eq_zero
  intro q _
  simp [hP q]



theorem infNb_eq_card {n : ℕ} (g : Grid n) (i j : Fin n) :
    infNb g i j = infNbCard g i j := by
  unfold infNbCard
  rw [Finset.card_filter]
  have hsplit : ∀ q : Fin n × Fin n,
      (if isOrthNb i j q.1 q.2 ∧ g q.1 q.2 = State.infected then (1:ℕ) else 0)
        = ((if (q.1.val + 1 = i.val ∧ q.2 = j) ∧ g q.1 q.2 = State.infected then 1 else 0)
            + (if (i.val + 1 = q.1.val ∧ q.2 = j) ∧ g q.1 q.2 = State.infected then 1 else 0))
          + ((if (q.2.val + 1 = j.val ∧ q.1 = i) ∧ g q.1 q.2 = State.infected then 1 else 0)
            + (if (j.val + 1 = q.2.val ∧ q.1 = i) ∧ g q.1 q.2 = State.infected then 1 else 0)) := by
    intro q
    by_cases hE : g q.1 q.2 = State.infected
    · simp only [hE, and_true, isOrthNb, Fin.ext_iff]
      split_ifs <;> omega
    · simp [hE]
  rw [Finset.sum_congr rfl fun q _ => hsplit q, Finset.sum_add_distrib,
    Finset.sum_add_distrib, Finset.sum_add_distrib]
  have hup : (∑ q : Fin n × Fin n,
      if (q.1.val + 1 = i.val ∧ q.2 = j) ∧ g q.1 q.2 = State.infected then (1:ℕ) else 0)
      = (if _h : 0 < i.val then
          (if g ⟨i.val - 1, lt_of_le_of_lt (Nat.sub_le _ _) i.isLt⟩ j = State.infected
           then 1 else 0) else 0) := by
    by_cases hi : 0 < i.val
    · rw [dif_pos hi]
      exact sum_pair_case g _ (⟨i.val - 1, lt_of_le_of_lt (Nat.sub_le _ _) i.isLt⟩, j)
        (by
          rintro ⟨a, b⟩
          simp only [Prod.mk.injEq, Fin.ext_iff]
          omega)
    · rw [dif_neg hi]
      exact sum_pair_empty g _ (by rintro ⟨a, b⟩ ⟨h1, _⟩; omega)
  have hdown : (∑ q : Fin n × Fin n,
      if (i.val + 1 = q.1.val ∧ q.2 = j) ∧ g q.1 q.2 = State.infected then (1:ℕ) else 0)
      = (if h : i.val + 1 < n then
          (if g ⟨i.val + 1, h⟩ j = State.infected then 1 else 0) else 0) := by
    by_cases hi : i.val + 1 < n
    · rw [dif_pos hi]
      exact sum_pair_case g _ (⟨i.val + 1, hi⟩, j)
        (by
          rintro ⟨a, b⟩
          simp only [Prod.mk.injEq, Fin.ext_iff]
          omega)
    · rw [dif_neg hi]
      exact sum_pair_empty g _ (by rintro ⟨a, b⟩ ⟨h1, _⟩; have := a.isLt; omega)
  have hleft : (∑ q : Fin n × Fin n,
      if (q.2.val + 1 = j.val ∧ q.1 = i) ∧ g q.1 q.2 = State.infected then (1:ℕ) else 0)
      = (if _h : 0 < j.val then
          (if g i ⟨j.val - 1, lt_of_le_of_lt (Nat.sub_le _ _) j.isLt⟩ = State.infected
           then 1 else 0) else 0) := by
    by_cases hj : 0 < j.val
    · rw [dif_pos hj]
      exact sum_pair_case g _ (i, ⟨j.val - 1, lt_of_le_of_lt (Nat.sub_le _ _) j.isLt⟩)
        (by
          rintro ⟨a, b⟩
          simp only [Prod.mk.injEq, Fin.ext_iff]
          omega)
    · rw [dif_neg hj]
      exact sum_pair_empty g _ (by rintro ⟨a, b⟩ ⟨h1, _⟩; omega)
  have hright : (∑ q : Fin n × Fin n,
      if (j.val + 1 = q.2.val ∧ q.1 = i) ∧ g q.1 q.2 = State.infected then (1:ℕ) else 0)
      = (if h : j.val + 1 < n then
          (if g i ⟨j.val + 1, h⟩ = State.infected then 1 else 0) else 0) := by
    by_cases hj : j.val + 1 < n
    · rw [dif_pos hj]
      exact sum_pair_case g _ (i, ⟨j.val + 1, hj⟩)
        (by
          rintro ⟨a, b⟩
          simp only [Prod.mk.injEq, Fin.ext_iff]
          omega)
    · rw [dif_neg hj]
      exact sum_pair_empty g _ (by rintro ⟨a, b⟩ ⟨h1, _⟩; have := b.isLt; omega)
  rw [hup, hdown, hleft, hright]
  unfold infNb
  ring

/-! ### Frame and monotonicity helpers -/

theorem runSteps_params {n : ℕ} (p : Pop n) (seedss : ℕ → ℕ → ℚ) (k : ℕ) :
    (runSteps p seedss k).params = p.params := by
  induction k with
  | zero => rfl
  | succ k ih => rw [runSteps, update_params_eq, ih]

theorem applyOp_t_le {n : ℕ} (p : Pop n) (o : Op n) : p.t ≤ (applyOp p o).t := by
  cases o with
  | force i j s => exact le_refl _
  | advance seeds => exact Nat.le_succ _

theorem applyOps_t_le {n : ℕ} (p : Pop n) (l : List (Op n)) :
    p.t ≤ (applyOps p l).t := by
  induction l generalizing p with
  | nil => exact le_refl _
  | cons o l ih => exact le_trans (applyOp_t_le p o) (ih (applyOp p o))

/-- With the vaccination gate off, no cell enters the vaccinated state:
a vaccinated result can only come from a vaccinated snapshot cell. -/
theorem cellStep_gate_off {n : ℕ} (prm : Params) (t : ℕ) (g : Grid n)
    (i j : Fin n) (seed : ℚ)
    (h : cellStep prm t false g i j seed = State.vaccinated) :
    g i j = State.vaccinated := by
  cases hg : g i j with
  | susceptible =>
      rw [cellStep_sus prm t false g i j seed hg] at h
      split_ifs at h <;> simp_all
  | infected =>
      rw [cellStep_inf prm t false g i j seed hg] at h
      split_ifs at h <;> simp_all
  | recovered =>
      rw [cellStep_rec prm t false g i j seed hg] at h
      split_ifs at h <;> simp_all
  | vaccinated => rfl

/-- The vaccinated tally only depends on which cells are vaccinated. -/
theorem stateCount_vacc_congr {n : ℕ} (g g' : Grid n)
    (h : ∀ i j, g i j = State.vaccinated ↔ g' i j = State.vaccinated) :
    stateCount g State.vaccinated = stateCount g' State.vaccinated := by
  unfold stateCount
  rw [Finset.filter_congr fun q _ => h q.1 q.2]

/-! ### Claim theorems -/

/-- C1: for every grid size n > 0 and after any sequence of forceState
and advance operations applied to a fresh population, the four tallies of
countStates (all naturals, hence non-negative) sum to n²: every cell is
counted in exactly one of the four states. -/
theorem counts_sum_conserved (n : ℕ) (hn : 0 < n) (prm : Params)
    (ops : List (Op n)) :
    (countStates (applyOps (initPop prm n) ops).grid).susceptible
      + (countStates (applyOps (initPop prm n) ops).grid).infected
      + (countStates (applyOps (initPop prm n) ops).grid).recovered
      + (countStates (applyOps (initPop prm n) ops).grid).vaccinated = n ^ 2 := by
  have h := stateCount_total (applyOps (initPop prm n) ops).grid
  simpa [countStates, pow_two] using h

theorem counts_sum_conserved_witness :
    0 < 2 ∧
    ((countStates (applyOps (initPop defaultParams 2)
        [Op.force 0 0 State.infected, Op.advance fun _ => 1/2]).grid).susceptible
      + (countStates (applyOps (initPop defaultParams 2)
          [Op.force 0 0 State.infected, Op.advance fun _ => 1/2]).grid).infected
      + (countStates (applyOps (initPop defaultParams 2)
          [Op.force 0 0 State.infected, Op.advance fun _ => 1/2]).grid).recovered
      + (countStates (applyOps (initPop defaultParams 2)
          [Op.force 0 0 State.infected, Op.advance fun _ => 1/2]).grid).vaccinated
      = 2 ^ 2) :=
  ⟨by decide, counts_sum_conserved 2 (by decide) defaultParams
      [Op.force 0 0 State.infected, Op.advance fun _ => 1/2]⟩

/-- C4: a vaccinated cell stays vaccinated under every subsequent advance,
whatever the draws: no transition rule leaves the vaccinated state. -/
theorem vaccinated_absorbing {n : ℕ} (p : Pop n) (seedss : ℕ → ℕ → ℚ)
    (k : ℕ) (i j : Fin n) (h : p.grid i j = State.vaccinated) :
    (runSteps p seedss k).grid i j = State.vaccinated := by
  induction k with
  | zero => exact h
  | succ k ih =>
      show (update (runSteps p seedss k) (seedss k)).grid i j = _
      rw [update_grid_eq]
      exact cellStep_vac _ _ _ _ _ _ _ ih

theorem vaccinated_absorbing_witness :
    popC.grid 0 0 = State.vaccinated ∧
    (runSteps popC (fun _ _ => 1/3) 2).grid 0 0 = State.vaccinated :=
  ⟨rfl, vaccinated_absorbing popC (fun _ _ => 1/3) 2 0 0 rfl⟩

/-- C8: advance is deterministic given its draws: two runs from identical
grids, day counters and parameters, fed the identical per-cell draw
sequences, have identical grids, day counters and countStates tallies after
every number of steps. -/
theorem run_deterministic {n : ℕ} (p q : Pop n) (hg : p.grid = q.grid)
    (ht : p.t = q.t) (hp : p.params = q.params) (seedss : ℕ → ℕ → ℚ) (k : ℕ) :
    (runSteps p seedss k).grid = (runSteps q seedss k).grid
      ∧ (runSteps p seedss k).t = (runSteps q seedss k).t
      ∧ countStates (runSteps p seedss k).grid
          = countStates (runSteps q seedss k).grid := by
  have hpq : p = q := by cases p; cases q; simp_all
  subst hpq
  exact ⟨rfl, rfl, rfl⟩

theorem run_deterministic_witness :
    popA.grid = popA.grid ∧
    ((runSteps popA (fun _ _ => 0) 3).grid = (runSteps popA (fun _ _ => 0) 3).grid
      ∧ (runSteps popA (fun _ _ => 0) 3).t = (runSteps popA (fun _ _ => 0) 3).t
      ∧ countStates (runSteps popA (fun _ _ => 0) 3).grid
          = countStates (runSteps popA (fun _ _ => 0) 3).grid) :=
  ⟨rfl, run_deterministic popA popA rfl rfl rfl (fun _ _ => 0) 3⟩

/-- C9: the day counter starts at 0, increases by exactly 1 per advance and
never decreases along any operation sequence; forceState changes only the
state of the targeted cell — never the day counter, another cell, or a
parameter. -/
theorem day_counter_frame :
    (∀ (prm : Params) (m : ℕ), (initPop prm m).t = 0)
    ∧ (∀ (n : ℕ) (p : Pop n) (seeds : ℕ → ℚ), (update p seeds).t = p.t + 1)
    ∧ (∀ (n : ℕ) (p : Pop n) (l : List (Op n)), p.t ≤ (applyOps p l).t)
    ∧ (∀ (n : ℕ) (p : Pop n) (i j : Fin n) (s : State),
        (forceState p i j s).t = p.t
        ∧ (forceState p i j s).params = p.params
        ∧ (forceState p i j s).grid i j = s
        ∧ (∀ a b : Fin n, ¬(a = i ∧ b = j) →
            (forceState p i j s).grid a b = p.grid a b)) := by
  refine ⟨fun prm m => rfl, fun n p seeds => rfl, fun n p l => applyOps_t_le p l,
    fun n p i j s => ⟨rfl, rfl, ?_, ?_⟩⟩
  · show (if i = i ∧ j = j then s else p.grid i j) = s
    simp
  · intro a b hab
    show (if a = i ∧ b = j then s else p.grid a b) = p.grid a b
    simp [hab]

theorem day_counter_frame_witness :
    ¬((1 : Fin 2) = 0 ∧ (1 : Fin 2) = 0) ∧
    (forceState popC 0 0 State.infected).grid 1 1 = popC.grid 1 1 :=
  ⟨by decide, (day_counter_frame.2.2.2 2 popC 0 0 State.infected).2.2.2 1 1 (by decide)⟩

/-- C2 (amended): for a snapshot-susceptible cell, advance computes k as
the number of in-bounds orthogonal neighbors infected in the snapshot (the
filter-card form, no wraparound) and p_inf = k·ri; the cell becomes
infected when seed < p_inf, becomes vaccinated when t ≥ tv, vaccination is
allowed and p_inf < seed < p_inf + rv (the source's lower bound is STRICT,
`chance_inf < seed`, not the claim's inclusive `p_inf ≤ seed`), and stays
susceptible otherwise; seed is the cell's single row-major draw. -/
theorem sus_step_rule {n : ℕ} (p : Pop n) (seeds : ℕ → ℚ) (i j : Fin n)
    (h : p.grid i j = State.susceptible) :
    (update p seeds).grid i j =
      (if seeds (i.val * n + j.val) < (infNbCard p.grid i j : ℚ) * p.params.ri
       then State.infected
       else if p.params.tv ≤ p.t + 1 ∧ vacFrac n p.grid < 1 - p.params.rvh
           ∧ (infNbCard p.grid i j : ℚ) * p.params.ri < seeds (i.val * n + j.val)
           ∧ seeds (i.val * n + j.val)
               < (infNbCard p.grid i j : ℚ) * p.params.ri + p.params.rv
       then State.vaccinated
       else State.susceptible) := by
  rw [update_grid_eq, cellStep_sus _ _ _ _ _ _ _ h, infNb_eq_card]
  simp only [decide_eq_true_eq]
  split_ifs <;> first | rfl | tauto

theorem sus_step_rule_witness :
    popA.grid 0 0 = State.susceptible ∧
    (update popA (fun _ => 0)).grid 0 0 =
      (if (0:ℚ) < (infNbCard popA.grid 0 0 : ℚ) * popA.params.ri
       then State.infected
       else if popA.params.tv ≤ popA.t + 1 ∧ vacFrac 1 popA.grid < 1 - popA.params.rvh
           ∧ (infNbCard popA.grid 0 0 : ℚ) * popA.params.ri < (0:ℚ)
           ∧ (0:ℚ) < (infNbCard popA.grid 0 0 : ℚ) * popA.params.ri + popA.params.rv
       then State.vaccinated
       else State.susceptible) :=
  ⟨rfl, sus_step_rule popA (fun _ => 0) 0 0 rfl⟩

/-- C2 counterexample: in `popA` (1×1 all-susceptible, t+1 = tv = 1, no
hesitancy, rv = 1/2) with draw seed = 0 the claim's conditions hold
(t ≥ tv, vaccination allowed, p_inf = 0 so p_inf ≤ seed < p_inf + rv), so
the claim as stated predicts Vaccinated, but the code's strict comparison
`chance_inf < seed` fails at seed = p_inf and the cell stays Susceptible. -/
theorem sus_vacc_inclusive_cex :
    popA.grid 0 0 = State.susceptible
    ∧ popA.params.tv ≤ popA.t + 1
    ∧ vacFrac 1 popA.grid < 1 - popA.params.rvh
    ∧ (infNb popA.grid 0 0 : ℚ) * popA.params.ri ≤ 0
    ∧ (0:ℚ) < (infNb popA.grid 0 0 : ℚ) * popA.params.ri + popA.params.rv
    ∧ (update popA (fun _ => 0)).grid 0 0 = State.susceptible := by
  have hnb : infNb popA.grid 0 0 = 0 := by decide
  have hsc : stateCount popA.grid State.vaccinated = 0 := by decide
  refine ⟨rfl, by decide, ?_, ?_, ?_, ?_⟩
  · unfold vacFrac
    rw [hsc]
    norm_num [popA, prmA, initPop]
  · rw [hnb]; norm_num
  · rw [hnb]; norm_num [popA, prmA, initPop]
  · rw [update_grid_eq, cellStep_sus _ _ _ _ _ _ _
      (show popA.grid 0 0 = State.susceptible from rfl), hnb]
    have hallow : decide (vacFrac 1 popA.grid < 1 - popA.params.rvh) = true := by
      rw [decide_eq_true_iff]
      unfold vacFrac
      rw [hsc]
      norm_num [popA, prmA, initPop]
    rw [hallow]
    norm_num [popA, prmA, initPop]

/-- C3 (amended): for a snapshot-recovered cell, advance makes it
susceptible when seed < rm; it becomes vaccinated when t > tv (strict,
asymmetric to the susceptible branch's t ≥ tv), vaccination is allowed and
rm < seed < rm + rv (the source's lower bound is STRICT, `_rm < seed`, not
the claim's inclusive `rm ≤ seed`); otherwise it stays recovered. -/
theorem rec_step_rule {n : ℕ} (p : Pop n) (seeds : ℕ → ℚ) (i j : Fin n)
    (h : p.grid i j = State.recovered) :
    (update p seeds).grid i j =
      (if seeds (i.val * n + j.val) < p.params.rm then State.susceptible
       else if p.params.tv < p.t + 1 ∧ vacFrac n p.grid < 1 - p.params.rvh
           ∧ p.params.rm < seeds (i.val * n + j.val)
           ∧ seeds (i.val * n + j.val) < p.params.rm + p.params.rv
       then State.vaccinated
       else State.recovered) := by
  rw [update_grid_eq, cellStep_rec _ _ _ _ _ _ _ h]
  simp only [decide_eq_true_eq]
  split_ifs <;> first | rfl | tauto

theorem rec_step_rule_witness :
    popB.grid 0 0 = State.recovered ∧
    (update popB (fun _ => 1/200)).grid 0 0 =
      (if (1:ℚ)/200 < popB.params.rm then State.susceptible
       else if popB.params.tv < popB.t + 1 ∧ vacFrac 1 popB.grid < 1 - popB.params.rvh
           ∧ popB.params.rm < (1:ℚ)/200
           ∧ (1:ℚ)/200 < popB.params.rm + popB.params.rv
       then State.vaccinated
       else State.recovered) :=
  ⟨rfl, rec_step_rule popB (fun _ => 1/200) 0 0 rfl⟩

/-- C3 counterexample: in `popB` (1×1 recovered cell, tv = 0 so t > tv
after one advance, no hesitancy, rm = 1/200, rv = 1/2) with draw
seed = rm = 1/200 the claim's conditions hold (¬(seed < rm), t > tv,
vaccination allowed, rm ≤ seed < rm + rv), so the claim as stated predicts
Vaccinated, but the code's strict comparison `_rm < seed` fails at
seed = rm and the cell stays Recovered. -/
theorem rec_vacc_inclusive_cex :
    popB.grid 0 0 = State.recovered
    ∧ popB.params.tv < popB.t + 1
    ∧ vacFrac 1 popB.grid < 1 - popB.params.rvh
    ∧ popB.params.rm ≤ (1:ℚ)/200
    ∧ ¬((1:ℚ)/200 < popB.params.rm)
    ∧ (1:ℚ)/200 < popB.params.rm + popB.params.rv
    ∧ (update popB (fun _ => 1/200)).grid 0 0 = State.recovered := by
  have hsc : stateCount popB.grid State.vaccinated = 0 := by decide
  refine ⟨rfl, by decide, ?_, ?_, ?_, ?_, ?_⟩
  · unfold vacFrac
    rw [hsc]
    norm_num [popB, prmB, initPop, forceState]
  · norm_num [popB, prmB, initPop, forceState]
  · norm_num [popB, prmB, initPop, forceState]
  · norm_num [popB, prmB, initPop, forceState]
  · rw [update_grid_eq, cellStep_rec _ _ _ _ _ _ _
      (show popB.grid 0 0 = State.recovered from rfl)]
    have hallow : decide (vacFrac 1 popB.grid < 1 - popB.params.rvh) = true := by
      rw [decide_eq_true_iff]
      unfold vacFrac
      rw [hsc]
      norm_num [popB, prmB, initPop, forceState]
    rw [hallow]
    norm_num [popB, prmB, initPop, forceState]


/-- C5: with vaccine-availability day tv, (1) an advance that lands on a
day strictly before tv never vaccinates a cell that was susceptible or
recovered, whatever the draws; (2) at day tv a susceptible cell can become
vaccinated and (3) at day tv+1 a recovered cell can become vaccinated; and
(4) once the vaccinated fraction has reached 1 − rvh, the set of vaccinated
cells never changes again in any number of later steps, even with
favorable draws. -/
theorem vaccination_gating :
    (∀ (n : ℕ) (p : Pop n) (seeds : ℕ → ℚ) (i j : Fin n),
        p.t + 1 < p.params.tv →
        (p.grid i j = State.susceptible ∨ p.grid i j = State.recovered) →
        (update p seeds).grid i j ≠ State.vaccinated)
    ∧ (popA.t + 1 = popA.params.tv ∧ popA.grid 0 0 = State.susceptible
        ∧ (update popA (fun _ => 1/4)).grid 0 0 = State.vaccinated)
    ∧ (popB.t + 1 = popB.params.tv + 1 ∧ popB.grid 0 0 = State.recovered
        ∧ (update popB (fun _ => 1/4)).grid 0 0 = State.vaccinated)
    ∧ (∀ (n : ℕ) (p : Pop n) (seedss : ℕ → ℕ → ℚ) (k : ℕ),
        1 - p.params.rvh ≤ vacFrac n p.grid →
        ∀ i j : Fin n, ((runSteps p seedss k).grid i j = State.vaccinated
          ↔ p.grid i j = State.vaccinated)) := by
  refine ⟨?_, ⟨rfl, rfl, ?_⟩, ⟨rfl, rfl, ?_⟩, ?_⟩
  · intro n p seeds i j ht hsr
    rw [update_grid_eq]
    rcases hsr with hs | hr
    · rw [cellStep_sus _ _ _ _ _ _ _ hs]
      have hgate : ¬(p.params.tv ≤ p.t + 1
          ∧ decide (vacFrac n p.grid < 1 - p.params.rvh) = true) := by
        rintro ⟨h1, _⟩; omega
      rw [if_neg hgate]
      split_ifs <;> simp
    · rw [cellStep_rec _ _ _ _ _ _ _ hr]
      have hgate : ¬(p.params.tv < p.t + 1
          ∧ decide (vacFrac n p.grid < 1 - p.params.rvh) = true) := by
        rintro ⟨h1, _⟩; omega
      rw [if_neg hgate]
      split_ifs <;> simp
  · rw [update_grid_eq, cellStep_sus _ _ _ _ _ _ _
      (show popA.grid 0 0 = State.susceptible from rfl)]
    have hnb : infNb popA.grid 0 0 = 0 := by decide
    have hsc : stateCount popA.grid State.vaccinated = 0 := by decide
    rw [hnb]
    have hallow : decide (vacFrac 1 popA.grid < 1 - popA.params.rvh) = true := by
      rw [decide_eq_true_iff]
      unfold vacFrac
      rw [hsc]
      norm_num [popA, prmA, initPop]
    rw [hallow]
    norm_num [popA, prmA, initPop]
  · rw [update_grid_eq, cellStep_rec _ _ _ _ _ _ _
      (show popB.grid 0 0 = State.recovered from rfl)]
    have hsc : stateCount popB.grid State.vaccinated = 0 := by decide
    have hallow : decide (vacFrac 1 popB.grid < 1 - popB.params.rvh) = true := by
      rw [decide_eq_true_iff]
      unfold vacFrac
      rw [hsc]
      norm_num [popB, prmB, initPop, forceState]
    rw [hallow]
    norm_num [popB, prmB, initPop, forceState]
  · intro n p seedss k hceil
    induction k with
    | zero => exact fun i j => Iff.rfl
    | succ k ih =>
        have hvf : vacFrac n (runSteps p seedss k).grid = vacFrac n p.grid := by
          unfold vacFrac
          rw [stateCount_vacc_congr _ p.grid ih]
        have hparams := runSteps_params p seedss k
        have hgate : decide (vacFrac n (runSteps p seedss k).grid
            < 1 - (runSteps p seedss k).params.rvh) = false := by
          rw [hvf, hparams, decide_eq_false_iff_not]
          exact not_lt.mpr hceil
        intro i j
        constructor
        · intro hv
          rw [show runSteps p seedss (k+1)
              = update (runSteps p seedss k) (seedss k) from rfl,
            update_grid_eq, hgate] at hv
          exact (ih i j).mp (cellStep_gate_off _ _ _ _ _ _ hv)
        · intro hv
          show (update (runSteps p seedss k) (seedss k)).grid i j = _
          rw [update_grid_eq]
          exact cellStep_vac _ _ _ _ _ _ _ ((ih i j).mpr hv)

theorem vaccination_gating_witness :
    (initPop defaultParams 1).t + 1 < (initPop defaultParams 1).params.tv
    ∧ ((initPop defaultParams 1).grid 0 0 = State.susceptible
        ∨ (initPop defaultParams 1).grid 0 0 = State.recovered)
    ∧ (update (initPop defaultParams 1) (fun _ => 0)).grid 0 0 ≠ State.vaccinated :=
  ⟨by decide, Or.inl rfl,
    vaccination_gating.1 1 (initPop defaultParams 1) (fun _ => 0) 0 0
      (by decide) (Or.inl rfl)⟩

/-- C6 (amended): the constructor validates nothing itself; the member
initializer `_m(n, std::vector<Person>(n))` fails — reported to the caller
with no object built — exactly for negative n (the huge converted
`size_t`), while every non-negative n, including n = 0, succeeds and
yields an n×n all-susceptible grid with day counter 0. -/
theorem construct_rule (prm : Params) (n : ℤ) :
    (construct prm n = none ↔ n < 0)
    ∧ (0 ≤ n → construct prm n = some ⟨n.toNat, initPop prm n.toNat⟩)
    ∧ (initPop prm n.toNat).t = 0
    ∧ (∀ i j : Fin n.toNat, (initPop prm n.toNat).grid i j = State.susceptible) := by
  refine ⟨?_, ?_, rfl, fun i j => rfl⟩
  · unfold construct
    by_cases h : n < 0 <;> simp [h]
  · intro h
    unfold construct
    rw [if_neg (not_lt.mpr h)]

theorem construct_rule_witness :
    (0:ℤ) ≤ 2 ∧ construct defaultParams 2
      = some ⟨(2:ℤ).toNat, initPop defaultParams (2:ℤ).toNat⟩ :=
  ⟨by decide, (construct_rule defaultParams 2).2.1 (by decide)⟩

/-- C6 counterexample: the claim says construction fails exactly when
n ≤ 0, but `Population(0)` succeeds (a well-formed empty matrix, no error
reported); only negative n fails. -/
theorem construct_zero_succeeds_cex :
    (0:ℤ) ≤ 0 ∧ construct defaultParams 0 ≠ none := by
  refine ⟨le_refl 0, ?_⟩
  unfold construct
  norm_num
  exact Option.some_ne_none _

/-- C10: allowVaccination is computed once per advance from the pre-step
vaccinated count (see `update`) and applied uniformly to every cell, so the
1 − rvh ceiling is not a state invariant: in `popC` (2×2, vaccinated
fraction 1/2, ceiling 3/4) a single advance with draws 1/4 vaccinates both
susceptible cells, ending with vaccinated fraction 1 > 3/4. -/
theorem ceiling_overshoot :
    vacFrac 2 popC.grid < 1 - popC.params.rvh
    ∧ 1 - popC.params.rvh < vacFrac 2 (update popC (fun _ => 1/4)).grid := by
  have hsc : stateCount popC.grid State.vaccinated = 2 := by decide
  have hallow : decide (vacFrac 2 popC.grid < 1 - popC.params.rvh) = true := by
    rw [decide_eq_true_iff]
    unfold vacFrac
    rw [hsc]
    norm_num [popC, prmC]
  constructor
  · unfold vacFrac
    rw [hsc]
    norm_num [popC, prmC]
  · have hnb : ∀ i j : Fin 2, infNb popC.grid i j = 0 := by decide
    have hpt : ∀ i j : Fin 2,
        (update popC (fun _ => 1/4)).grid i j = State.vaccinated := by
      intro i j
      rw [update_grid_eq]
      by_cases h0 : i.val = 0
      · exact cellStep_vac _ _ _ _ _ _ _ (by simp [popC, h0])
      · have hs : popC.grid i j = State.susceptible := by simp [popC, h0]
        rw [cellStep_sus _ _ _ _ _ _ _ hs, hnb i j, hallow]
        norm_num [popC, prmC]
    have hcount :
        stateCount (update popC (fun _ => 1/4)).grid State.vaccinated = 4 := by
      unfold stateCount
      rw [Finset.filter_true_of_mem fun q _ => hpt q.1 q.2]
      decide
    unfold vacFrac
    rw [hcount]
    norm_num [popC, prmC]

end Epidemic
